import Mathlib

/-!
Verification of the SynoLink MCP server (TypeScript) against its
natural-language specification.

The development shallowly embeds the two source variants of the server:
`src/src/index.ts` (the "Idx" definitions) and the unnamed variant
`src/unnamed/part_000` (the "Syno" definitions).  Remote HTTP traffic is
modelled by an explicit environment of responses: every remote call either
throws at the transport layer (`RResp.netFail`, an axios rejection) or
yields a decoded JSON envelope (`RResp.reply`).  Mutable module state
(the cached session id) is threaded explicitly.  Each tool handler is a
total function from its inputs and the response environment to a result
together with the trace of remote calls it issued, so that the ordering
claims about the asynchronous search protocol become statements about
concrete traces.
-/

namespace SynoLink

/-- Decoded JSON envelope of a Synology WebAPI response: `success` is the
top-level `success` boolean, `data` is the (possibly absent) `data`
payload, `errCode` models `error.code` when an `error` object is present,
and `errMsg` models `error.errors[0].message`. -/
structure Envelope (α : Type) where
  success : Bool
  data : Option α := none
  errCode : Option Nat := none
  errMsg : Option String := none
  deriving Repr

/-- Outcome of one HTTP request: either the transport throws (axios
rejection, `netFail` with the thrown message) or a decoded envelope is
delivered. -/
inductive RResp (α : Type) where
  | netFail (msg : String)
  | reply (e : Envelope α)
  deriving Repr

/-- Renders `x.code` the way a JavaScript template literal renders it:
an absent value prints as `undefined`. -/
def renderCode : Option Nat → String
  | none => "undefined"
  | some c => toString c

/-- Message of the TypeError raised when JavaScript dereferences a field
of `undefined` (e.g. `response.data.data.finished` on an envelope whose
`data` is absent). -/
def typeErrorMsg : String := "TypeError: cannot read properties of undefined"

/-! ## formatBytes (src/src/index.ts lines 674-684) -/

/-- Fuelled floor logarithm: largest `i` with `k ^ i ≤ m`, computed by
repeated division exactly as `Math.floor(Math.log(bytes) / Math.log(k))`
computes it for the inputs in range.  The fuel `64` is ample for any
byte count the formatter is ever applied to (`m < 1024 ^ 64`). -/
def floorLogAux (k : Nat) : Nat → Nat → Nat
  | 0, _ => 0
  | fuel + 1, m => if m < k then 0 else floorLogAux k fuel (m / k) + 1

/-- Floor logarithm in base `k`, the exact-arithmetic model of
`Math.floor(Math.log bytes / Math.log k)`. -/
def floorLog (k m : Nat) : Nat := floorLogAux k 64 m

/-- Strips trailing decimal zeros from a scaled fixed-point value, the
model of JavaScript `parseFloat` applied to the result of `toFixed`:
`(scaled, digits)` becomes `(scaled / 10, digits - 1)` while the last
digit is zero. -/
def stripZeros : Nat → Nat → Nat × Nat
  | s, 0 => (s, 0)
  | s, d + 1 => if s % 10 == 0 then stripZeros (s / 10) d else (s, d + 1)

/-- Pads a digit string with leading zeros up to width `d`. -/
def padZeros (str : String) (d : Nat) : String :=
  String.mk (List.replicate (d - str.length) '0') ++ str

/-- Renders the value `s / 10 ^ d` as JavaScript renders the number
`parseFloat` produced (no trailing zeros, no decimal point when the
value is integral). -/
def renderDec (s d : Nat) : String :=
  if d == 0 then toString s
  else toString (s / 10 ^ d) ++ "." ++ padZeros (toString (s % 10 ^ d)) d

/-- Exact-arithmetic model of `parseFloat((num / den).toFixed(dm))`
rendered back to a string: round `num / den` to `dm` decimal places
(half away from zero, as `toFixed` does for positive values) and strip
trailing zeros. -/
def renderFixed (num den dm : Nat) : String :=
  let scaled := (2 * num * 10 ^ dm + den) / (2 * den)
  let sd := stripZeros scaled dm
  renderDec sd.1 sd.2

/-- Model of `formatBytes` (src/src/index.ts lines 674-684).  The
floating-point `Math.log`/`Math.pow` pipeline of the source is modelled
by exact integer arithmetic, which agrees with it on the inputs the
claims exercise.  An index past the end of the unit table renders as
`undefined`, as JavaScript renders `sizes[i]` out of range. -/
def formatBytes (bytes : Nat) (decimals : Int := 2) : String :=
  if bytes == 0 then "0 Bytes"
  else
    let k := 1024
    let dm := (if decimals < 0 then 0 else decimals).toNat
    let sizes := ["Bytes", "KB", "MB", "GB", "TB", "PB", "EB", "ZB", "YB"]
    let i := floorLog k bytes
    renderFixed bytes (k ^ i) dm ++ " " ++ sizes.getD i "undefined"

/-! ## formatSynoPath (src/unnamed/part_000 lines 165-177)

JavaScript strings are modelled as `List Char`; `startsWith '/'` is a
`head?` test, `endsWith '/'` a `getLast?` test and `slice(0, -1)` is
`dropLast`. -/

/-- Model of `formatSynoPath`: prepend a leading slash when absent, then
remove a single trailing slash unless the path is exactly the root. -/
def formatSynoPath (p : List Char) : List Char :=
  let p1 := if p.head? = some '/' then p else '/' :: p
  if p1 ≠ ['/'] ∧ p1.getLast? = some '/' then p1.dropLast else p1

/-! ## Search task orchestration

Both variants drive the asynchronous vendor search protocol:
`start` → poll `status` until `finished` → `list` → `stop`.
`SearchEnv` supplies the remote responses (the `status` response may
differ from poll to poll), and the orchestrators return the trace of
search-protocol calls they issued together with the invocation outcome.
The polling loop of the source is unbounded, so the models take a fuel
parameter; an outcome of `none` means the loop was still running when
the fuel ran out (a finite prefix of the real execution). -/

/-- A file entry as the FileStation API returns it (the fields the
source reads: `name`, `path`, `isdir`, `size`, `time.mtime`). -/
structure SFile where
  name : String
  path : String
  isdir : Bool
  size : Nat
  mtime : Nat := 0
  deriving Repr

/-- The four calls of the vendor search protocol. -/
inductive SCall where
  | start
  | status
  | list
  | stop
  deriving DecidableEq, Repr

/-- Remote responses for one search invocation: the status response is a
function of the poll index (in a status envelope, `data` models
`data.finished`; in a list envelope, `data` models `data.files`). -/
structure SearchEnv where
  startR : RResp String
  statusR : Nat → RResp Bool
  listR : RResp (List SFile)
  stopR : RResp Unit

/-- One line of the `search` result text in src/src/index.ts
(lines 500-503): a `[DIR]`/`[FILE]` marker followed by the entry path. -/
def searchLineIdx (f : SFile) : String :=
  (if f.isdir then "[DIR]" else "[FILE]") ++ " " ++ f.path ++ "\n"

/-- The `search` result text of src/src/index.ts (lines 496-508). -/
def renderSearchIdx (kw p : String) (files : List SFile) : String :=
  "Search results for \"" ++ kw ++ "\" in " ++ p ++ ":\n"
    ++ String.join (files.map searchLineIdx)
    ++ (if files.length == 0 then "No results found.\n" else "")

/-- The polling loop of the `search` tool case in src/src/index.ts
(lines 469-521), started after a successful `start` call.  Per
iteration: issue a `status` call; a transport failure propagates; the
`success` flag of the status envelope is never inspected by this
variant, only `data.finished` (an absent `data` raises a TypeError).
On `finished`, issue the `list` call; a failed list envelope is silently
skipped (the result text stays empty); then issue the `stop` call
unconditionally and return.  `n` is the index of the next poll. -/
def searchPollIdx (env : SearchEnv) (kw p : String) :
    Nat → Nat → List SCall × Option (Except String String)
  | 0, _ => ([], none)
  | fuel + 1, n =>
    match env.statusR n with
    | .netFail m => ([.status], some (.error m))
    | .reply e =>
      match e.data with
      | none => ([.status], some (.error typeErrorMsg))
      | some finished =>
        if finished then
          match env.listR with
          | .netFail m => ([.status, .list], some (.error m))
          | .reply le =>
            if le.success then
              match le.data with
              | none => ([.status, .list], some (.error typeErrorMsg))
              | some files =>
                match env.stopR with
                | .netFail m => ([.status, .list, .stop], some (.error m))
                | .reply _ =>
                  ([.status, .list, .stop], some (.ok (renderSearchIdx kw p files)))
            else
              match env.stopR with
              | .netFail m => ([.status, .list, .stop], some (.error m))
              | .reply _ => ([.status, .list, .stop], some (.ok ""))
        else
          let r := searchPollIdx env kw p fuel (n + 1)
          (.status :: r.1, r.2)

/-- The `search` tool case of src/src/index.ts (lines 441-526) from the
`start` call on: a failed or malformed start envelope raises before any
polling; otherwise the polling loop runs. -/
def searchIdx (env : SearchEnv) (kw p : String) (fuel : Nat) :
    List SCall × Option (Except String String) :=
  match env.startR with
  | .netFail m => ([.start], some (.error m))
  | .reply e =>
    if e.success then
      match e.data with
      | none => ([.start], some (.error typeErrorMsg))
      | some _taskId =>
        let r := searchPollIdx env kw p fuel 0
        (.start :: r.1, r.2)
    else ([.start], some (.error ("Search failed: " ++ renderCode e.errCode)))

/-- The polling loop of `searchFiles` in src/unnamed/part_000
(lines 407-448).  Per iteration: issue a `status` call; a transport
failure propagates and an unsuccessful status envelope raises.  Once
`finished`, issue the `list` call; an unsuccessful list envelope raises
(skipping the stop call), otherwise the `stop` call is issued and the
file list returned (read after the stop call in the source). -/
def searchPollSyno (env : SearchEnv) :
    Nat → Nat → List SCall × Option (Except String (List SFile))
  | 0, _ => ([], none)
  | fuel + 1, n =>
    match env.statusR n with
    | .netFail m => ([.status], some (.error m))
    | .reply e =>
      if e.success then
        match e.data with
        | none => ([.status], some (.error typeErrorMsg))
        | some finished =>
          if finished then
            match env.listR with
            | .netFail m => ([.status, .list], some (.error m))
            | .reply le =>
              if le.success then
                match env.stopR with
                | .netFail m => ([.status, .list, .stop], some (.error m))
                | .reply _ =>
                  match le.data with
                  | none => ([.status, .list, .stop], some (.error typeErrorMsg))
                  | some files => ([.status, .list, .stop], some (.ok files))
              else
                ([.status, .list],
                  some (.error ("Failed to get search results: " ++ renderCode le.errCode)))
          else
            let r := searchPollSyno env fuel (n + 1)
            (.status :: r.1, r.2)
      else ([.status], some (.error ("Search status check failed: " ++ renderCode e.errCode)))

/-- `searchFiles` of src/unnamed/part_000 (lines 364-455) from the
`start` call on (the preceding `refreshSession` call is modelled in the
dispatcher, where the session id is threaded). -/
def searchFiles (env : SearchEnv) (fuel : Nat) :
    List SCall × Option (Except String (List SFile)) :=
  match env.startR with
  | .netFail m => ([.start], some (.error m))
  | .reply e =>
    if e.success then
      match e.data with
      | none => ([.start], some (.error typeErrorMsg))
      | some _taskId =>
        let r := searchPollSyno env fuel 0
        (.start :: r.1, r.2)
    else ([.start], some (.error ("Failed to start search: " ++ renderCode e.errCode)))

/-! ## Session lifecycle

src/src/index.ts keeps the session id in a module-level
`let sid: string | null`, tested with JavaScript truthiness (`if (sid)`,
`if (!sid)`); src/unnamed/part_000 keeps it in `dsm.sid : string`
initialised to the empty string.  The models thread that state
explicitly and additionally return the number of HTTP requests issued,
so that the idempotence and token-reuse claims become statements about
request counts. -/

/-- JavaScript truthiness of the `sid` variable of src/src/index.ts:
`null` and the empty string are falsy. -/
def sidTruthy : Option String → Bool
  | none => false
  | some s => !(s == "")

/-- Model of `login` (src/src/index.ts lines 90-120).  Returns the new
cached `sid`, the number of login HTTP requests issued, and the result.
A truthy cached sid is returned without any request; otherwise one
request is issued and, on a successful envelope, `data.sid` is cached.
All thrown errors (transport failure, failed envelope, absent `data`)
are caught and re-raised as the fixed authentication message. -/
def login (sid : Option String) (r : RResp String) :
    Option String × Nat × Except String String :=
  if sidTruthy sid then (sid, 0, .ok (sid.getD ""))
  else
    match r with
    | .netFail _ => (sid, 1, .error "Failed to authenticate with Synology NAS")
    | .reply e =>
      if e.success then
        match e.data with
        | some t => (some t, 1, .ok t)
        | none => (sid, 1, .error "Failed to authenticate with Synology NAS")
      else (sid, 1, .error "Failed to authenticate with Synology NAS")

/-- Model of `logout` (src/src/index.ts lines 122-139).  Returns the new
cached `sid` and the number of logout HTTP requests issued.  A falsy
cached sid returns immediately with no request.  When the request
completes, `sid` is set to `null` without inspecting the envelope; when
the request throws, the catch block only logs, so the cached sid is
left in place.  The function never raises. -/
def logout (sid : Option String) (r : RResp Unit) : Option String × Nat :=
  if sidTruthy sid then
    match r with
    | .netFail _ => (sid, 1)
    | .reply _ => (none, 1)
  else (sid, 0)

/-- Model of `synoLogin` (src/unnamed/part_000 lines 45-85).  Always
issues one login request (the cache test lives in `ensureLogin`).
Returns the new `dsm.sid`, the request count and the success flag; on
any failure the catch block returns `false` and `dsm.sid` is unchanged. -/
def synoLogin (sid : String) (r : RResp String) : String × Nat × Bool :=
  match r with
  | .netFail _ => (sid, 1, false)
  | .reply e =>
    if e.success then
      match e.data with
      | some t => (t, 1, true)
      | none => (sid, 1, false)
    else (sid, 1, false)

/-- Model of `synoLogout` (src/unnamed/part_000 lines 87-118).  A falsy
(empty) `dsm.sid` returns `true` with no request.  Otherwise one logout
request is issued; only a successful envelope clears `dsm.sid` — an
unsuccessful envelope or a transport failure leaves the cached sid in
place and returns `false`.  The function never raises. -/
def synoLogout (sid : String) (r : RResp Unit) : String × Nat × Bool :=
  if sid == "" then (sid, 0, true)
  else
    match r with
    | .netFail _ => (sid, 1, false)
    | .reply e => if e.success then ("", 1, true) else (sid, 1, false)

/-- Model of `ensureLogin` (src/unnamed/part_000 lines 121-129): when
`dsm.sid` is falsy, run `synoLogin` and raise on failure; otherwise
return with no request.  The result carries the new sid and the number
of login requests issued. -/
def ensureLogin (sid : String) (r : RResp String) : Except String (String × Nat) :=
  if sid == "" then
    let l := synoLogin sid r
    if l.2.2 then .ok (l.1, l.2.1) else .error "Failed to log in to Synology NAS"
  else .ok (sid, 0)

/-! ## refreshSession and the list_directory flow (src/unnamed/part_000) -/

/-- The remote calls issued by the part_000 API wrappers. -/
inductive NCall where
  | probe
  | loginC
  | sharesC
  | fsListC
  | downloadC
  | uploadC
  | mkdirC
  | getinfoC
  | sStart
  | sStatus
  | sList
  | sStop
  deriving DecidableEq, Repr

/-- Embeds the search-protocol trace into the part_000 call alphabet. -/
def scallToN : SCall → NCall
  | .start => .sStart
  | .status => .sStatus
  | .list => .sList
  | .stop => .sStop

/-- Model of `refreshSession` (src/unnamed/part_000 lines 132-162).
It issues a `SYNO.API.Info` probe carrying the current sid.  When the
probe envelope is unsuccessful with `error.code === 119`, or when the
probe throws, `synoLogin` runs again (one login request) and its result
is returned; any other probe outcome — including an unsuccessful
envelope with a different code — is treated as a valid session.
Returns the new sid, the trace of calls and the returned boolean. -/
def refreshSession (sid : String) (probe : RResp Unit) (loginR : RResp String) :
    String × List NCall × Bool :=
  match probe with
  | .netFail _ =>
    let l := synoLogin sid loginR
    (l.1, [.probe, .loginC], l.2.2)
  | .reply e =>
    if e.success = false ∧ e.errCode = some 119 then
      let l := synoLogin sid loginR
      (l.1, [.probe, .loginC], l.2.2)
    else (sid, [.probe], true)

/-- Model of `listDirectory` (src/unnamed/part_000 lines 250-270):
`refreshSession` first (its boolean result is ignored by the caller),
then one `SYNO.FileStation.List` call carrying the — possibly
refreshed — sid; the response may depend on that sid, which is how a
stale-session error is mocked.  An unsuccessful envelope raises with
the remote error code; there is no retry. -/
def listDirectory (sid : String) (probe : RResp Unit) (loginR : RResp String)
    (listR : String → RResp (List SFile)) :
    String × List NCall × Except String (List SFile) :=
  let rs := refreshSession sid probe loginR
  match listR rs.1 with
  | .netFail m => (rs.1, rs.2.1 ++ [.fsListC], .error m)
  | .reply e =>
    if e.success then
      match e.data with
      | some fs => (rs.1, rs.2.1 ++ [.fsListC], .ok fs)
      | none => (rs.1, rs.2.1 ++ [.fsListC], .error typeErrorMsg)
    else
      (rs.1, rs.2.1 ++ [.fsListC],
        .error ("Failed to list directory: " ++ renderCode e.errCode))

/-! ## Tool arguments and zod validation

Tool arguments arrive as an optional JSON object.  The per-tool zod
schemas of the source are objects of (required or optional) string
fields; `safeParse` failure produces a `ZodError` whose stringification
names the path of each offending field.  The zod library is outside the
repository, so its error rendering is modelled (faithful in that each
issue names the path of the field and the received type); the schemas
themselves are taken from the source. -/

/-- A JSON value in a tool-arguments object. -/
inductive JVal where
  | str (s : String)
  | num (n : Int)
  | boolV (b : Bool)
  | nullV
  deriving DecidableEq, Repr

/-- A tool-arguments object: field names with their values. -/
def Args := List (String × JVal)

/-- Field lookup in an arguments object. -/
def getArg (a : Args) (k : String) : Option JVal :=
  (a.find? fun p => p.1 == k).map (·.2)

/-- The received-type name zod reports for a value. -/
def jvalTypeName : JVal → String
  | .str _ => "string"
  | .num _ => "number"
  | .boolV _ => "boolean"
  | .nullV => "null"

/-- Issue reported for a required string field: absent values report
`Required`, non-string values report an `invalid_type` with the
received type; a string value passes.  Each issue names the path of the
offending field, as the stringified `ZodError` does. -/
def zodStrIssue (k : String) (v : Option JVal) : Option String :=
  match v with
  | some (.str _) => none
  | some x =>
    some ("invalid_type at path [ " ++ k ++ " ]: expected string, received "
      ++ jvalTypeName x)
  | none => some ("invalid_type at path [ " ++ k ++ " ]: Required")

/-- Issue reported for an optional string field (`z.string().optional()`
and `z.string().default(..)`): only a present non-string value fails. -/
def zodOptStrIssue (k : String) (v : Option JVal) : Option String :=
  match v with
  | none => none
  | some (.str _) => none
  | some x =>
    some ("invalid_type at path [ " ++ k ++ " ]: expected string, received "
      ++ jvalTypeName x)

/-- The stringified `ZodError` of `safeParse` on an object schema whose
required fields are `req` and whose optional string fields are `opt`:
`none` when parsing succeeds.  An entirely absent arguments object fails
with a root-level issue. -/
def zodParse (args : Option Args) (req : List String) (opt : List String := []) :
    Option String :=
  let issues :=
    match args with
    | none => ["invalid_type at path [ ]: expected object, received undefined"]
    | some a =>
      req.filterMap (fun k => zodStrIssue k (getArg a k))
        ++ opt.filterMap (fun k => zodOptStrIssue k (getArg a k))
  if issues.isEmpty then none
  else some ("ZodError: [ " ++ String.intercalate "; " issues ++ " ]")

/-- The parsed value of a required string field (meaningful once
`zodParse` succeeded). -/
def getStr (args : Option Args) (k : String) : String :=
  match args with
  | none => ""
  | some a =>
    match getArg a k with
    | some (.str s) => s
    | _ => ""

/-! ## JSON rendering (JSON.stringify with indent 2)

The part_000 dispatcher renders its success payloads with
`JSON.stringify(formatted, null, 2)`, where `formatted` is always a
flat object or an array of flat objects; the renderer below reproduces
that layout for atomic field values. -/

/-- An atomic JSON field value. -/
inductive JAtom where
  | s (v : String)
  | i (v : Int)
  | b (v : Bool)
  deriving Repr

/-- Renders an atomic JSON value (string contents are assumed to need
no JSON escaping, as the envelope data the claims exercise does not). -/
def jatomRender : JAtom → String
  | .s v => "\x22" ++ v ++ "\x22"
  | .i v => toString v
  | .b v => if v then "true" else "false"

/-- Renders a flat JSON object whose closing brace is indented by
`pre`, in the layout of `JSON.stringify(_, null, 2)`. -/
def jobjRender (pre : String) (fs : List (String × JAtom)) : String :=
  if fs.isEmpty then "\x7b\x7d"
  else
    "\x7b\n"
      ++ String.intercalate ",\n"
        (fs.map fun f => pre ++ "  \x22" ++ f.1 ++ "\x22: " ++ jatomRender f.2)
      ++ "\n" ++ pre ++ "\x7d"

/-- Renders an array of flat JSON objects in the layout of
`JSON.stringify(_, null, 2)`. -/
def jarrRender (objs : List (List (String × JAtom))) : String :=
  if objs.isEmpty then "[]"
  else
    "[\n"
      ++ String.intercalate ",\n" (objs.map fun fs => "  " ++ jobjRender "  " fs)
      ++ "\n]"

/-! ## The part_000 API wrappers and dispatcher -/

/-- A share entry as `list_share` returns it. -/
structure ShareEntry where
  name : String
  path : String
  desc : String
  deriving Repr

/-- The fields of a `getinfo` entry the `get_file_info` handler reads
(`additional` sub-fields are optional in the response). -/
structure FileDetail where
  name : String
  path : String
  isdir : Bool
  size : Nat
  owner : Option String := none
  group : Option String := none
  posix : Option Nat := none
  crtime : Option Nat := none
  mtime : Option Nat := none
  atime : Option Nat := none
  deriving Repr

/-- Remote responses for one part_000 tool invocation.  Responses to
calls that carry the session id are functions of that id, so stale- and
fresh-session behaviour can differ. -/
structure WorldS where
  probeR : RResp Unit
  loginR : RResp String
  sharesR : String → RResp (List ShareEntry)
  listR : String → RResp (List SFile)
  dlR : String → Except String String
  upR : String → RResp Unit
  mkdirR : String → RResp Unit
  searchE : String → SearchEnv
  infoR : String → RResp (List FileDetail)

/-- Model of `listShares` (src/unnamed/part_000 lines 229-248). -/
def listShares (sid : String) (w : WorldS) :
    String × List NCall × Except String (List ShareEntry) :=
  let rs := refreshSession sid w.probeR w.loginR
  match w.sharesR rs.1 with
  | .netFail m => (rs.1, rs.2.1 ++ [.sharesC], .error m)
  | .reply e =>
    if e.success then
      match e.data with
      | some shares => (rs.1, rs.2.1 ++ [.sharesC], .ok shares)
      | none => (rs.1, rs.2.1 ++ [.sharesC], .error typeErrorMsg)
    else
      (rs.1, rs.2.1 ++ [.sharesC],
        .error ("Failed to list shares: " ++ renderCode e.errCode))

/-- Model of `readFile` (src/unnamed/part_000 lines 272-292): the
download response is a raw body with no envelope; only a transport
failure raises. -/
def readFile (sid : String) (w : WorldS) :
    String × List NCall × Except String String :=
  let rs := refreshSession sid w.probeR w.loginR
  match w.dlR rs.1 with
  | .error m => (rs.1, rs.2.1 ++ [.downloadC], .error m)
  | .ok body => (rs.1, rs.2.1 ++ [.downloadC], .ok body)

/-- Model of `writeFile` (src/unnamed/part_000 lines 294-328). -/
def writeFile (sid : String) (w : WorldS) :
    String × List NCall × Except String Unit :=
  let rs := refreshSession sid w.probeR w.loginR
  match w.upR rs.1 with
  | .netFail m => (rs.1, rs.2.1 ++ [.uploadC], .error m)
  | .reply e =>
    if e.success then (rs.1, rs.2.1 ++ [.uploadC], .ok ())
    else
      (rs.1, rs.2.1 ++ [.uploadC],
        .error ("Failed to write file: " ++ renderCode e.errCode))

/-- Model of `createDirectory` (src/unnamed/part_000 lines 330-362). -/
def createDirectory (sid : String) (w : WorldS) :
    String × List NCall × Except String Unit :=
  let rs := refreshSession sid w.probeR w.loginR
  match w.mkdirR rs.1 with
  | .netFail m => (rs.1, rs.2.1 ++ [.mkdirC], .error m)
  | .reply e =>
    if e.success then (rs.1, rs.2.1 ++ [.mkdirC], .ok ())
    else
      (rs.1, rs.2.1 ++ [.mkdirC],
        .error ("Failed to create directory: " ++ renderCode e.errCode))

/-- Model of `getFileInfo` (src/unnamed/part_000 lines 457-477),
together with the dereference `files[0]` whose absence surfaces — via
the field reads of the dispatcher on `undefined` — as a caught TypeError. -/
def getFileInfo (sid : String) (w : WorldS) :
    String × List NCall × Except String FileDetail :=
  let rs := refreshSession sid w.probeR w.loginR
  match w.infoR rs.1 with
  | .netFail m => (rs.1, rs.2.1 ++ [.getinfoC], .error m)
  | .reply e =>
    if e.success then
      match e.data with
      | some fs =>
        match fs.head? with
        | some f => (rs.1, rs.2.1 ++ [.getinfoC], .ok f)
        | none => (rs.1, rs.2.1 ++ [.getinfoC], .error typeErrorMsg)
      | none => (rs.1, rs.2.1 ++ [.getinfoC], .error typeErrorMsg)
    else
      (rs.1, rs.2.1 ++ [.getinfoC],
        .error ("Failed to get file info: " ++ renderCode e.errCode))

/-- Result of one dispatcher invocation as the protocol bridge sees it:
the single text content and the `isError` marker. -/
structure ToolResult where
  text : String
  isError : Bool
  deriving DecidableEq, Repr

/-- Renders `x || "unknown"` for an optional string, with JavaScript
truthiness (an empty string is falsy). -/
def orUnknownStr : Option String → String
  | some s => if s == "" then "unknown" else s
  | none => "unknown"

/-- Renders `x || "unknown"` for an optional number (zero is falsy in
JavaScript, so it also renders as `unknown`). -/
def orUnknownNum : Option Nat → JAtom
  | some n => if n == 0 then .s "unknown" else .i n
  | none => .s "unknown"

/-- The `formatted` object of the `get_file_info` case
(src/unnamed/part_000 lines 635-646). -/
def fileInfoFields (f : FileDetail) : List (String × JAtom) :=
  [("name", .s f.name), ("path", .s f.path),
   ("type", .s (if f.isdir then "directory" else "file")),
   ("size", .i f.size),
   ("owner", .s (orUnknownStr f.owner)),
   ("group", .s (orUnknownStr f.group)),
   ("permissions", orUnknownNum f.posix),
   ("created", orUnknownNum f.crtime),
   ("modified", orUnknownNum f.mtime),
   ("accessed", orUnknownNum f.atime)]

/-- The body of the part_000 `CallToolRequestSchema` handler
(src/unnamed/part_000 lines 540-655) before its boundary catch: maps a
tool name and arguments to the success text or the raised error.
Returns the new session id, the issued remote calls and the outcome
(`none` when the search polling loop outlives the fuel). -/
def runToolS (sid : String) (name : String) (args : Option Args) (w : WorldS)
    (fuel : Nat) : String × List NCall × Option (Except String String) :=
  match name with
  | "list_shares" =>
    let r := listShares sid w
    (r.1, r.2.1, some (r.2.2.map fun shares =>
      jarrRender (shares.map fun s =>
        [("name", .s s.name), ("path", .s s.path), ("description", .s s.desc)])))
  | "list_directory" =>
    match zodParse args ["path"] with
    | some e =>
      (sid, [], some (.error ("Invalid arguments for list_directory: " ++ e)))
    | none =>
      let r := listDirectory sid w.probeR w.loginR w.listR
      (r.1, r.2.1, some (r.2.2.map fun files =>
        jarrRender (files.map fun f =>
          [("name", .s f.name),
           ("type", .s (if f.isdir then "directory" else "file")),
           ("size", .i f.size), ("modified", .i f.mtime)])))
  | "read_file" =>
    match zodParse args ["path"] with
    | some e => (sid, [], some (.error ("Invalid arguments for read_file: " ++ e)))
    | none =>
      let r := readFile sid w
      (r.1, r.2.1, some r.2.2)
  | "write_file" =>
    match zodParse args ["path", "content"] with
    | some e => (sid, [], some (.error ("Invalid arguments for write_file: " ++ e)))
    | none =>
      let r := writeFile sid w
      (r.1, r.2.1, some (r.2.2.map fun _ =>
        "Successfully wrote to " ++ getStr args "path"))
  | "create_directory" =>
    match zodParse args ["path"] with
    | some e =>
      (sid, [], some (.error ("Invalid arguments for create_directory: " ++ e)))
    | none =>
      let r := createDirectory sid w
      (r.1, r.2.1, some (r.2.2.map fun _ =>
        "Successfully created directory " ++ getStr args "path"))
  | "search_files" =>
    match zodParse args ["path", "pattern"] with
    | some e =>
      (sid, [], some (.error ("Invalid arguments for search_files: " ++ e)))
    | none =>
      let rs := refreshSession sid w.probeR w.loginR
      let r := searchFiles (w.searchE rs.1) fuel
      (rs.1, rs.2.1 ++ r.1.map scallToN,
        r.2.map fun o => o.map fun files =>
          jarrRender (files.map fun f =>
            [("name", .s f.name), ("path", .s f.path),
             ("type", .s (if f.isdir then "directory" else "file")),
             ("size", .i f.size)]))
  | "get_file_info" =>
    match zodParse args ["path"] with
    | some e =>
      (sid, [], some (.error ("Invalid arguments for get_file_info: " ++ e)))
    | none =>
      let r := getFileInfo sid w
      (r.1, r.2.1, some (r.2.2.map fun f => jobjRender "" (fileInfoFields f)))
  | _ => (sid, [], some (.error ("Unknown tool: " ++ name)))

/-- The part_000 dispatcher with its boundary catch (src/unnamed/part_000
lines 540-663): every raised error becomes a `ToolResult` whose text is
`Error: ` followed by the message, marked `isError`.  A result of
`none` models the unbounded polling loop still running at the fuel
bound. -/
def dispatchS (sid : String) (name : String) (args : Option Args) (w : WorldS)
    (fuel : Nat) : Option ToolResult × String × List NCall :=
  let r := runToolS sid name args w fuel
  match r.2.2 with
  | none => (none, r.1, r.2.1)
  | some (.ok t) => (some ⟨t, false⟩, r.1, r.2.1)
  | some (.error m) => (some ⟨"Error: " ++ m, true⟩, r.1, r.2.1)

/-! ## The src/src/index.ts dispatcher -/

/-- The remote calls issued by the index.ts tool handlers. -/
inductive ICall where
  | loginC
  | logoutC
  | listC
  | getinfoC
  | downloadC
  | uploadC
  | createC
  | deleteC
  | renameC
  | sStart
  | sStatus
  | sList
  | sStop
  | shareCreateC
  | shareListC
  | infoC
  | volumeC
  deriving DecidableEq, Repr

/-- Embeds the search-protocol trace into the index.ts call alphabet. -/
def scallToI : SCall → ICall
  | .start => .sStart
  | .status => .sStatus
  | .list => .sList
  | .stop => .sStop

/-- A sharing link as `SYNO.FileStation.Sharing list` returns it. -/
structure ShareLink where
  path : String
  url : String
  expire : Option Nat := none
  deriving Repr

/-- The server information the `get_server_info` handler reads
(`Object.entries` preserves insertion order, modelled by a list). -/
structure ServerInfo where
  hostname : String
  version : String
  time : Nat
  support : List (String × Bool)
  deriving Repr

/-- A storage volume as `SYNO.FileStation.Volume list` returns it. -/
structure Volume where
  name : String
  status : String
  filesystem : String
  total_size : Nat
  free_size : Nat
  deriving Repr

/-- Remote responses for one index.ts tool invocation; `locale` models
the locale-dependent `Date.toLocaleString` rendering. -/
structure WorldI where
  loginR : RResp String
  logoutR : RResp Unit
  listR : String → RResp (List SFile)
  getinfoR : String → RResp Unit
  dlR : String → Except String String
  upR : String → RResp Unit
  createR : String → RResp Unit
  deleteR : String → RResp Unit
  renameR : String → RResp Unit
  searchE : String → SearchEnv
  shareCreateR : String → RResp Unit
  shareListR : String → RResp (List ShareLink)
  infoR : String → RResp ServerInfo
  volumeR : String → RResp (List Volume)
  locale : Nat → String

/-- One `await login()` step inside an index.ts handler: the cached sid
is reused without a request, otherwise one login request is issued. -/
def loginStep (sid : Option String) (r : RResp String) :
    Option String × List ICall × Except String String :=
  let l := login sid r
  (l.1, if l.2.1 == 0 then [] else [.loginC], l.2.2)

/-- Renders the fallback chain over `error?.errors?.[0]?.message` with
JavaScript truthiness. -/
def errMsgRender : Option String → String
  | some m => if m == "" then "Unknown error" else m
  | none => "Unknown error"

/-- One line of the `list_folders` result text
(src/src/index.ts lines 265-268). -/
def folderLineIdx (f : SFile) : String :=
  (if f.isdir then "[DIR]" else "[FILE]") ++ " " ++ f.name ++ "\n"

/-- One block of the `get_share_links` result text
(src/src/index.ts lines 568-578); `if (link.expire_time)` is falsy for
an absent and for a zero expiry. -/
def shareLineIdx (locale : Nat → String) (l : ShareLink) : String :=
  "URL: " ++ l.url ++ "\n"
    ++ match l.expire with
       | some t => if t == 0 then "No expiration date\n" else "Expires: " ++ locale t ++ "\n"
       | none => "No expiration date\n"

/-- One block of the `get_quota_info` result text
(src/src/index.ts lines 640-653); the used percentage is
`Math.round((used / total) * 100)`, which is `NaN` on an empty volume. -/
def volumeBlockIdx (v : Volume) : String :=
  let used := v.total_size - v.free_size
  let pct :=
    if v.total_size == 0 then "NaN"
    else toString ((200 * used + v.total_size) / (2 * v.total_size))
  "Volume: " ++ v.name ++ "\n"
    ++ "  - Status: " ++ v.status ++ "\n"
    ++ "  - File System: " ++ v.filesystem ++ "\n"
    ++ "  - Total Size: " ++ formatBytes v.total_size ++ "\n"
    ++ "  - Used: " ++ formatBytes used ++ " (" ++ pct ++ "%)\n"
    ++ "  - Free: " ++ formatBytes v.free_size ++ "\n"

/-- The body of the index.ts `CallToolRequestSchema` handler
(src/src/index.ts lines 222-663) before its boundary catch.  Returns
the new cached sid, the issued remote calls and the outcome (`none`
when the search polling loop outlives the fuel). -/
def runToolI (sid : Option String) (name : String) (args : Option Args)
    (w : WorldI) (fuel : Nat) :
    Option String × List ICall × Option (Except String String) :=
  match name with
  | "login" =>
    let l := loginStep sid w.loginR
    (l.1, l.2.1, some (l.2.2.map fun t =>
      "Successfully logged in with session ID: " ++ t))
  | "logout" =>
    let lo := logout sid w.logoutR
    (lo.1, if lo.2 == 0 then [] else [.logoutC], some (.ok "Successfully logged out"))
  | "list_folders" =>
    match zodParse args ["path"] with
    | some e => (sid, [], some (.error ("Invalid arguments: " ++ e)))
    | none =>
      let l := loginStep sid w.loginR
      match l.2.2 with
      | .error m => (l.1, l.2.1, some (.error m))
      | .ok t =>
        match w.listR t with
        | .netFail m => (l.1, l.2.1 ++ [.listC], some (.error m))
        | .reply e =>
          if e.success then
            match e.data with
            | some files =>
              (l.1, l.2.1 ++ [.listC], some (.ok
                ("Items in " ++ getStr args "path" ++ ":\n"
                  ++ String.join (files.map folderLineIdx))))
            | none => (l.1, l.2.1 ++ [.listC], some (.error typeErrorMsg))
          else
            (l.1, l.2.1 ++ [.listC], some (.error
              ("Error " ++ renderCode e.errCode ++ ": " ++ errMsgRender e.errMsg)))
  | "get_file" =>
    match zodParse args ["path"] with
    | some e => (sid, [], some (.error ("Invalid arguments: " ++ e)))
    | none =>
      let l := loginStep sid w.loginR
      match l.2.2 with
      | .error m => (l.1, l.2.1, some (.error m))
      | .ok t =>
        match w.getinfoR t with
        | .netFail m => (l.1, l.2.1 ++ [.getinfoC], some (.error m))
        | .reply e =>
          if e.success then
            match w.dlR t with
            | .error m => (l.1, l.2.1 ++ [.getinfoC, .downloadC], some (.error m))
            | .ok body => (l.1, l.2.1 ++ [.getinfoC, .downloadC], some (.ok body))
          else
            (l.1, l.2.1 ++ [.getinfoC], some (.error
              "Error: File not found or cannot be accessed"))
  | "upload_file" =>
    match zodParse args ["path", "content"] with
    | some e => (sid, [], some (.error ("Invalid arguments: " ++ e)))
    | none =>
      let l := loginStep sid w.loginR
      match l.2.2 with
      | .error m => (l.1, l.2.1, some (.error m))
      | .ok t =>
        match w.upR t with
        | .netFail m => (l.1, l.2.1 ++ [.uploadC], some (.error m))
        | .reply e =>
          if e.success then
            (l.1, l.2.1 ++ [.uploadC], some (.ok
              ("Successfully uploaded file to " ++ getStr args "path")))
          else
            (l.1, l.2.1 ++ [.uploadC], some (.error
              ("Upload failed: " ++ renderCode e.errCode)))
  | "create_folder" =>
    match zodParse args ["path", "name"] with
    | some e => (sid, [], some (.error ("Invalid arguments: " ++ e)))
    | none =>
      let l := loginStep sid w.loginR
      match l.2.2 with
      | .error m => (l.1, l.2.1, some (.error m))
      | .ok t =>
        match w.createR t with
        | .netFail m => (l.1, l.2.1 ++ [.createC], some (.error m))
        | .reply e =>
          if e.success then
            (l.1, l.2.1 ++ [.createC], some (.ok
              ("Successfully created folder " ++ getStr args "name"
                ++ " at " ++ getStr args "path")))
          else
            (l.1, l.2.1 ++ [.createC], some (.error
              ("Failed to create folder: " ++ renderCode e.errCode)))
  | "delete_item" =>
    match zodParse args ["path"] with
    | some e => (sid, [], some (.error ("Invalid arguments: " ++ e)))
    | none =>
      let l := loginStep sid w.loginR
      match l.2.2 with
      | .error m => (l.1, l.2.1, some (.error m))
      | .ok t =>
        match w.deleteR t with
        | .netFail m => (l.1, l.2.1 ++ [.deleteC], some (.error m))
        | .reply e =>
          if e.success then
            (l.1, l.2.1 ++ [.deleteC], some (.ok
              ("Successfully deleted " ++ getStr args "path")))
          else
            (l.1, l.2.1 ++ [.deleteC], some (.error
              ("Failed to delete item: " ++ renderCode e.errCode)))
  | "move_item" =>
    match zodParse args ["source", "destination"] with
    | some e => (sid, [], some (.error ("Invalid arguments: " ++ e)))
    | none =>
      let l := loginStep sid w.loginR
      match l.2.2 with
      | .error m => (l.1, l.2.1, some (.error m))
      | .ok t =>
        match w.renameR t with
        | .netFail m => (l.1, l.2.1 ++ [.renameC], some (.error m))
        | .reply e =>
          if e.success then
            (l.1, l.2.1 ++ [.renameC], some (.ok
              ("Successfully moved " ++ getStr args "source"
                ++ " to " ++ getStr args "destination")))
          else
            (l.1, l.2.1 ++ [.renameC], some (.error
              ("Failed to move/rename item: " ++ renderCode e.errCode)))
  | "search" =>
    match zodParse args ["keyword"] ["path"] with
    | some e => (sid, [], some (.error ("Invalid arguments: " ++ e)))
    | none =>
      let kw := getStr args "keyword"
      let p :=
        match args.bind (getArg · "path") with
        | some (.str s) => s
        | _ => "/"
      let l := loginStep sid w.loginR
      match l.2.2 with
      | .error m => (l.1, l.2.1, some (.error m))
      | .ok t =>
        let r := searchIdx (w.searchE t) kw p fuel
        (l.1, l.2.1 ++ r.1.map scallToI, r.2)
  | "get_share_links" =>
    match zodParse args ["path"] with
    | some e => (sid, [], some (.error ("Invalid arguments: " ++ e)))
    | none =>
      let l := loginStep sid w.loginR
      match l.2.2 with
      | .error m => (l.1, l.2.1, some (.error m))
      | .ok t =>
        match w.shareCreateR t with
        | .netFail m => (l.1, l.2.1 ++ [.shareCreateC], some (.error m))
        | .reply ce =>
          if ce.success then
            match w.shareListR t with
            | .netFail m =>
              (l.1, l.2.1 ++ [.shareCreateC, .shareListC], some (.error m))
            | .reply le =>
              if le.success then
                match le.data with
                | some links =>
                  (l.1, l.2.1 ++ [.shareCreateC, .shareListC], some (.ok
                    ("Share links for " ++ getStr args "path" ++ ":\n"
                      ++ String.join ((links.filter
                          fun lk => lk.path == getStr args "path").map
                          (shareLineIdx w.locale)))))
                | none =>
                  (l.1, l.2.1 ++ [.shareCreateC, .shareListC],
                    some (.error typeErrorMsg))
              else
                (l.1, l.2.1 ++ [.shareCreateC, .shareListC], some (.error
                  ("Failed to list share links: " ++ renderCode le.errCode)))
          else
            (l.1, l.2.1 ++ [.shareCreateC], some (.error
              ("Failed to create share link: " ++ renderCode ce.errCode)))
  | "get_server_info" =>
    let l := loginStep sid w.loginR
    match l.2.2 with
    | .error m => (l.1, l.2.1, some (.error m))
    | .ok t =>
      match w.infoR t with
      | .netFail m => (l.1, l.2.1 ++ [.infoC], some (.error m))
      | .reply e =>
        if e.success then
          match e.data with
          | some info =>
            (l.1, l.2.1 ++ [.infoC], some (.ok
              ("Synology Server Information:\n"
                ++ "Hostname: " ++ info.hostname ++ "\n"
                ++ "DSM Version: " ++ info.version ++ "\n"
                ++ "Time: " ++ w.locale info.time ++ "\n"
                ++ "Filesystem support:\n"
                ++ String.join (info.support.map fun fs =>
                     "  - " ++ fs.1 ++ ": " ++ (if fs.2 then "Yes" else "No") ++ "\n"))))
          | none => (l.1, l.2.1 ++ [.infoC], some (.error typeErrorMsg))
        else
          (l.1, l.2.1 ++ [.infoC], some (.error
            ("Failed to get server info: " ++ renderCode e.errCode)))
  | "get_quota_info" =>
    match zodParse args [] ["volume"] with
    | some e => (sid, [], some (.error ("Invalid arguments: " ++ e)))
    | none =>
      let sel := args.bind (getArg · "volume")
      let l := loginStep sid w.loginR
      match l.2.2 with
      | .error m => (l.1, l.2.1, some (.error m))
      | .ok t =>
        match w.volumeR t with
        | .netFail m => (l.1, l.2.1 ++ [.volumeC], some (.error m))
        | .reply e =>
          if e.success then
            match e.data with
            | some volumes =>
              (l.1, l.2.1 ++ [.volumeC], some (.ok
                ("Storage Volume Information:\n"
                  ++ String.join ((volumes.filter fun v =>
                       match sel with
                       | some (.str nm) => if nm == "" then true else v.name == nm
                       | _ => true).map volumeBlockIdx))))
            | none => (l.1, l.2.1 ++ [.volumeC], some (.error typeErrorMsg))
          else
            (l.1, l.2.1 ++ [.volumeC], some (.error
              ("Failed to get quota info: " ++ renderCode e.errCode)))
  | _ => (sid, [], some (.error ("Unknown tool: " ++ name)))

/-- The index.ts dispatcher with its boundary catch (src/src/index.ts
lines 222-671). -/
def dispatchI (sid : Option String) (name : String) (args : Option Args)
    (w : WorldI) (fuel : Nat) : Option ToolResult × Option String × List ICall :=
  let r := runToolI sid name args w fuel
  match r.2.2 with
  | none => (none, r.1, r.2.1)
  | some (.ok t) => (some ⟨t, false⟩, r.1, r.2.1)
  | some (.error m) => (some ⟨"Error: " ++ m, true⟩, r.1, r.2.1)

/-! ## Trace predicates and mock environments -/

/-- Whether the envelope of the `n`-th status poll reports `finished: true`
(the `data.finished` field of the reply). -/
def finB (env : SearchEnv) (n : Nat) : Bool :=
  match env.statusR n with
  | .reply e => e.data == some true
  | .netFail _ => false

/-- Checks that every `stop` in a search trace is preceded by a `list`;
`seen` records whether a `list` has already occurred. -/
def stopAfterListB : Bool → List SCall → Bool
  | _, [] => true
  | _, .list :: r => stopAfterListB true r
  | seen, .stop :: r => seen && stopAfterListB seen r
  | seen, .start :: r => stopAfterListB seen r
  | seen, .status :: r => stopAfterListB seen r

/-- Checks that every `list` in a search trace is preceded by some
status poll whose response reported `finished: true`: `ok` records
whether such a poll has occurred, `n` is the index of the next poll. -/
def listAfterFinB (fin : Nat → Bool) : Bool → Nat → List SCall → Bool
  | _, _, [] => true
  | ok, n, .status :: r => listAfterFinB fin (ok || fin n) (n + 1) r
  | ok, n, .list :: r => ok && listAfterFinB fin ok n r
  | ok, n, .start :: r => listAfterFinB fin ok n r
  | ok, n, .stop :: r => listAfterFinB fin ok n r

/-- Whether an invocation outcome is a normal (non-error) return. -/
def isOkOpt {ε α : Type} : Option (Except ε α) → Bool
  | some (.ok _) => true
  | _ => false

/-- The mocked remote of the search scenario in the spec: `status` reports
`finished: false` on polls 0 and 1 and `finished: true` from poll 2 on;
start, list and stop succeed. -/
def envFFT : SearchEnv where
  startR := .reply { success := true, data := some "51" }
  statusR := fun n => .reply { success := true, data := some (decide (2 ≤ n)) }
  listR := .reply { success := true, data := some [⟨"f.txt", "/p/f.txt", false, 10, 0⟩] }
  stopR := .reply { success := true, data := some () }

/-- A remote whose very first status poll fails at the transport layer
(the start call itself succeeds). -/
def envPollFail : SearchEnv where
  startR := .reply { success := true, data := some "51" }
  statusR := fun _ => .netFail "socket hang up"
  listR := .reply { success := true, data := some [] }
  stopR := .reply { success := true, data := some () }

/-- A probe reply reporting session timeout (`error.code === 119`). -/
def probe119 : RResp Unit := .reply { success := false, errCode := some 119 }

/-- A successful probe reply. -/
def probeOk : RResp Unit := .reply { success := true, data := some () }

/-- A successful login reply issuing session id `t`. -/
def loginOk (t : String) : RResp String := .reply { success := true, data := some t }

/-- A FileStation List reply reporting session timeout
(`error.code === 119`) whatever sid the call carries. -/
def list119 : String → RResp (List SFile) := fun _ =>
  .reply { success := false, errCode := some 119 }

/-- A sample part_000 response world in which every call succeeds. -/
def sampleWorldS : WorldS where
  probeR := probeOk
  loginR := loginOk "fresh"
  sharesR := fun _ => .reply { success := true, data := some [⟨"share", "/share", "d"⟩] }
  listR := fun _ => .reply { success := true, data := some [⟨"a.txt", "/p/a.txt", false, 3, 7⟩] }
  dlR := fun _ => .ok "contents"
  upR := fun _ => .reply { success := true, data := some () }
  mkdirR := fun _ => .reply { success := true, data := some () }
  searchE := fun _ => envFFT
  infoR := fun _ => .reply { success := true, data := some [⟨"a.txt", "/p/a.txt", false, 3,
    some "admin", some "users", some 644, some 1, some 2, some 3⟩] }

/-- A sample index.ts response world in which every call succeeds. -/
def sampleWorldI : WorldI where
  loginR := loginOk "fresh"
  logoutR := .reply { success := true, data := some () }
  listR := fun _ => .reply { success := true, data := some [⟨"a.txt", "/p/a.txt", false, 3, 7⟩] }
  getinfoR := fun _ => .reply { success := true, data := some () }
  dlR := fun _ => .ok "contents"
  upR := fun _ => .reply { success := true, data := some () }
  createR := fun _ => .reply { success := true, data := some () }
  deleteR := fun _ => .reply { success := true, data := some () }
  renameR := fun _ => .reply { success := true, data := some () }
  searchE := fun _ => envFFT
  shareCreateR := fun _ => .reply { success := true, data := some () }
  shareListR := fun _ => .reply { success := true, data := some [⟨"/p", "http://sh/1", none⟩] }
  infoR := fun _ => .reply { success := true, data := some ⟨"nas", "7.2", 5, [("cifs", true)]⟩ }
  volumeR := fun _ => .reply { success := true, data := some [⟨"volume_1", "normal", "btrfs", 2048, 1024⟩] }
  locale := fun _ => "1/1/2025, 12:00:00 AM"

/-- Whether an argument value is present and a string. -/
def isStrArg : Option JVal → Bool
  | some (.str _) => true
  | _ => false

/-- An arguments object whose `path` field has the wrong primitive
type. -/
def badArgs : Args := [("path", JVal.num 3)]

end SynoLink
namespace SynoLink

lemma pollIdx_stopAfterList (env : SearchEnv) (kw p : String) :
    ∀ fuel n seen, stopAfterListB seen (searchPollIdx env kw p fuel n).1 = true := by
  intro fuel
  induction fuel with
  | zero => intro n seen; simp [searchPollIdx, stopAfterListB]
  | succ f ih =>
    intro n seen
    simp only [searchPollIdx]
    rcases env.statusR n with m | e
    · simp [stopAfterListB]
    · rcases hd : e.data with _ | fin
      · simp [hd, stopAfterListB]
      · rcases fin
        · simp [hd, stopAfterListB, ih (n + 1) seen]
        · rcases env.listR with m | le
          · simp [hd, stopAfterListB]
          · rcases hs : le.success with _ | _
            · rcases env.stopR with m | u <;> simp [hd, hs, stopAfterListB]
            · rcases hld : le.data with _ | files
              · simp [hd, hs, hld, stopAfterListB]
              · rcases env.stopR with m | u <;> simp [hd, hs, hld, stopAfterListB]

lemma pollIdx_countStop (env : SearchEnv) (kw p : String) :
    ∀ fuel n, (searchPollIdx env kw p fuel n).1.count .stop ≤ 1 := by
  intro fuel
  induction fuel with
  | zero => intro n; simp [searchPollIdx]
  | succ f ih =>
    intro n
    simp only [searchPollIdx]
    rcases env.statusR n with m | e
    · simp
    · rcases hd : e.data with _ | fin
      · simp [hd]
      · rcases fin
        · simpa [hd, List.count_cons] using ih (n + 1)
        · rcases env.listR with m | le
          · simp [hd]
          · rcases hs : le.success with _ | _
            · rcases env.stopR with m | u <;> simp [hd, hs, List.count_cons]
            · rcases hld : le.data with _ | files
              · simp [hd, hs, hld]
              · rcases env.stopR with m | u <;> simp [hd, hs, hld, List.count_cons]

lemma pollIdx_listAfterFin (env : SearchEnv) (kw p : String) :
    ∀ fuel n ok, listAfterFinB (finB env) ok n (searchPollIdx env kw p fuel n).1 = true := by
  intro fuel
  induction fuel with
  | zero => intro n ok; simp [searchPollIdx, listAfterFinB]
  | succ f ih =>
    intro n ok
    simp only [searchPollIdx]
    rcases hst : env.statusR n with m | e
    · simp [listAfterFinB]
    · rcases hd : e.data with _ | fin
      · simp [hd, listAfterFinB]
      · rcases fin
        · simp [hd, listAfterFinB, ih (n + 1)]
        · have hfin : finB env n = true := by simp [finB, hst, hd]
          rcases env.listR with m | le
          · simp [hd, listAfterFinB, hfin]
          · rcases hs : le.success with _ | _
            · rcases env.stopR with m | u <;> simp [hd, hs, listAfterFinB, hfin]
            · rcases hld : le.data with _ | files
              · simp [hd, hs, hld, listAfterFinB, hfin]
              · rcases env.stopR with m | u <;> simp [hd, hs, hld, listAfterFinB, hfin]

lemma pollIdx_okStop (env : SearchEnv) (kw p : String) :
    ∀ fuel n, isOkOpt (searchPollIdx env kw p fuel n).2 = true →
      SCall.stop ∈ (searchPollIdx env kw p fuel n).1 := by
  intro fuel
  induction fuel with
  | zero => intro n h; simp [searchPollIdx, isOkOpt] at h
  | succ f ih =>
    intro n
    simp only [searchPollIdx]
    rcases env.statusR n with m | e
    · simp [isOkOpt]
    · rcases hd : e.data with _ | fin
      · simp [hd, isOkOpt]
      · rcases fin
        · intro h
          have h2 : isOkOpt (searchPollIdx env kw p f (n + 1)).2 = true := by
            simpa [hd] using h
          simp [hd, List.mem_cons, ih (n + 1) h2]
        · rcases env.listR with m | le
          · simp [hd, isOkOpt]
          · rcases hs : le.success with _ | _
            · rcases env.stopR with m | u <;> simp [hd, hs, isOkOpt]
            · rcases hld : le.data with _ | files
              · simp [hd, hs, hld, isOkOpt]
              · rcases env.stopR with m | u <;> simp [hd, hs, hld, isOkOpt]

lemma pollSyno_stopAfterList (env : SearchEnv) :
    ∀ fuel n seen, stopAfterListB seen (searchPollSyno env fuel n).1 = true := by
  intro fuel
  induction fuel with
  | zero => intro n seen; simp [searchPollSyno, stopAfterListB]
  | succ f ih =>
    intro n seen
    simp only [searchPollSyno]
    rcases env.statusR n with m | e
    · simp [stopAfterListB]
    · rcases hsu : e.success with _ | _
      · simp [hsu, stopAfterListB]
      · rcases hd : e.data with _ | fin
        · simp [hsu, hd, stopAfterListB]
        · rcases fin
          · simp [hsu, hd, stopAfterListB, ih (n + 1) seen]
          · rcases env.listR with m | le
            · simp [hsu, hd, stopAfterListB]
            · rcases hs : le.success with _ | _
              · simp [hsu, hd, hs, stopAfterListB]
              · rcases env.stopR with m | u
                · simp [hsu, hd, hs, stopAfterListB]
                · rcases hld : le.data with _ | files <;>
                    simp [hsu, hd, hs, hld, stopAfterListB]

lemma pollSyno_countStop (env : SearchEnv) :
    ∀ fuel n, (searchPollSyno env fuel n).1.count .stop ≤ 1 := by
  intro fuel
  induction fuel with
  | zero => intro n; simp [searchPollSyno]
  | succ f ih =>
    intro n
    simp only [searchPollSyno]
    rcases env.statusR n with m | e
    · simp
    · rcases hsu : e.success with _ | _
      · simp [hsu]
      · rcases hd : e.data with _ | fin
        · simp [hsu, hd]
        · rcases fin
          · simpa [hsu, hd, List.count_cons] using ih (n + 1)
          · rcases env.listR with m | le
            · simp [hsu, hd]
            · rcases hs : le.success with _ | _
              · simp [hsu, hd, hs]
              · rcases env.stopR with m | u
                · simp [hsu, hd, hs, List.count_cons]
                · rcases hld : le.data with _ | files <;>
                    simp [hsu, hd, hs, hld, List.count_cons]

lemma pollSyno_listAfterFin (env : SearchEnv) :
    ∀ fuel n ok, listAfterFinB (finB env) ok n (searchPollSyno env fuel n).1 = true := by
  intro fuel
  induction fuel with
  | zero => intro n ok; simp [searchPollSyno, listAfterFinB]
  | succ f ih =>
    intro n ok
    simp only [searchPollSyno]
    rcases hst : env.statusR n with m | e
    · simp [listAfterFinB]
    · rcases hsu : e.success with _ | _
      · simp [hsu, listAfterFinB]
      · rcases hd : e.data with _ | fin
        · simp [hsu, hd, listAfterFinB]
        · rcases fin
          · simp [hsu, hd, listAfterFinB, ih (n + 1)]
          · have hfin : finB env n = true := by simp [finB, hst, hd]
            rcases env.listR with m | le
            · simp [hsu, hd, listAfterFinB, hfin]
            · rcases hs : le.success with _ | _
              · simp [hsu, hd, hs, listAfterFinB, hfin]
              · rcases env.stopR with m | u
                · simp [hsu, hd, hs, listAfterFinB, hfin]
                · rcases hld : le.data with _ | files <;>
                    simp [hsu, hd, hs, hld, listAfterFinB, hfin]

lemma pollSyno_okStop (env : SearchEnv) :
    ∀ fuel n, isOkOpt (searchPollSyno env fuel n).2 = true →
      SCall.stop ∈ (searchPollSyno env fuel n).1 := by
  intro fuel
  induction fuel with
  | zero => intro n h; simp [searchPollSyno, isOkOpt] at h
  | succ f ih =>
    intro n
    simp only [searchPollSyno]
    rcases env.statusR n with m | e
    · simp [isOkOpt]
    · rcases hsu : e.success with _ | _
      · simp [hsu, isOkOpt]
      · rcases hd : e.data with _ | fin
        · simp [hsu, hd, isOkOpt]
        · rcases fin
          · intro h
            have h2 : isOkOpt (searchPollSyno env f (n + 1)).2 = true := by
              simpa [hsu, hd] using h
            simp [hsu, hd, List.mem_cons, ih (n + 1) h2]
          · rcases env.listR with m | le
            · simp [hsu, hd, isOkOpt]
            · rcases hs : le.success with _ | _
              · simp [hsu, hd, hs, isOkOpt]
              · rcases env.stopR with m | u
                · simp [hsu, hd, hs, isOkOpt]
                · rcases hld : le.data with _ | files <;> simp [hsu, hd, hs, hld, isOkOpt]

/-- C1: with a mocked remote whose status endpoint reports
`finished: false` on the first two polls and `finished: true` on the
third, both search orchestrations issue exactly 3 status calls, then
exactly 1 list call, then exactly 1 stop call, in that order, and no
other search-protocol call after the start call. -/
theorem search_fft_trace :
    (searchIdx envFFT "kw" "/p" 10).1
        = [.start, .status, .status, .status, .list, .stop]
    ∧ (searchFiles envFFT 10).1
        = [.start, .status, .status, .status, .list, .stop] := by
  constructor <;> decide

/-- C2: for every remote environment and fuel bound, the traces of both
search orchestrations satisfy the ordering invariant: a stop call only
after a list call, at most one stop call per started task, and a list
call only after some status response reported `finished: true`. -/
theorem search_call_ordering (env : SearchEnv) (kw p : String) (fuel : Nat) :
    (stopAfterListB false (searchIdx env kw p fuel).1 = true
      ∧ (searchIdx env kw p fuel).1.count SCall.stop ≤ 1
      ∧ listAfterFinB (finB env) false 0 (searchIdx env kw p fuel).1 = true)
    ∧ (stopAfterListB false (searchFiles env fuel).1 = true
      ∧ (searchFiles env fuel).1.count SCall.stop ≤ 1
      ∧ listAfterFinB (finB env) false 0 (searchFiles env fuel).1 = true) := by
  constructor
  · refine ⟨?_, ?_, ?_⟩ <;>
      · simp only [searchIdx]
        rcases env.startR with m | e
        · simp [stopAfterListB, listAfterFinB]
        · rcases hs : e.success with _ | _
          · simp [hs, stopAfterListB, listAfterFinB]
          · rcases hd : e.data with _ | tid
            · simp [hs, hd, stopAfterListB, listAfterFinB]
            · simp [hs, hd, stopAfterListB, listAfterFinB, List.count_cons,
                pollIdx_stopAfterList, pollIdx_countStop, pollIdx_listAfterFin]
  · refine ⟨?_, ?_, ?_⟩ <;>
      · simp only [searchFiles]
        rcases env.startR with m | e
        · simp [stopAfterListB, listAfterFinB]
        · rcases hs : e.success with _ | _
          · simp [hs, stopAfterListB, listAfterFinB]
          · rcases hd : e.data with _ | tid
            · simp [hs, hd, stopAfterListB, listAfterFinB]
            · simp [hs, hd, stopAfterListB, listAfterFinB, List.count_cons,
                pollSyno_stopAfterList, pollSyno_countStop, pollSyno_listAfterFin]

/-- C3 counterexample: a search whose start call succeeds but whose
first status poll throws returns an error without ever issuing a stop
call (no try/finally guards the polling loop), in both variants. -/
theorem search_no_stop_on_poll_failure :
    (searchIdx envPollFail "kw" "/p" 10).1 = [.start, .status]
    ∧ (searchIdx envPollFail "kw" "/p" 10).2 = some (.error "socket hang up")
    ∧ (searchFiles envPollFail 10).1 = [.start, .status]
    ∧ (searchFiles envPollFail 10).2 = some (.error "socket hang up") :=
  ⟨by decide, rfl, by decide, rfl⟩

/-- C3 (amended): a stop call for the started task is issued before the
invocation returns whenever the invocation completes successfully; on a
failing or throwing status poll, or a throwing list call, the
invocation may return without issuing stop. -/
theorem search_stop_on_success (env : SearchEnv) (kw p : String) (fuel : Nat) :
    (isOkOpt (searchIdx env kw p fuel).2 = true →
      SCall.stop ∈ (searchIdx env kw p fuel).1)
    ∧ (isOkOpt (searchFiles env fuel).2 = true →
      SCall.stop ∈ (searchFiles env fuel).1) := by
  constructor
  · simp only [searchIdx]
    rcases env.startR with m | e
    · simp [isOkOpt]
    · rcases hs : e.success with _ | _
      · simp [hs, isOkOpt]
      · rcases hd : e.data with _ | tid
        · simp [hs, hd, isOkOpt]
        · intro h
          have h2 : isOkOpt (searchPollIdx env kw p fuel 0).2 = true := by
            simpa [hs, hd] using h
          simp [hs, hd, List.mem_cons, pollIdx_okStop env kw p fuel 0 h2]
  · simp only [searchFiles]
    rcases env.startR with m | e
    · simp [isOkOpt]
    · rcases hs : e.success with _ | _
      · simp [hs, isOkOpt]
      · rcases hd : e.data with _ | tid
        · simp [hs, hd, isOkOpt]
        · intro h
          have h2 : isOkOpt (searchPollSyno env fuel 0).2 = true := by
            simpa [hs, hd] using h
          simp [hs, hd, List.mem_cons, pollSyno_okStop env fuel 0 h2]

/-- Witness for `search_stop_on_success` at the finished-on-third-poll
environment, in which both orchestrations return successfully. -/
theorem search_stop_on_success_witness :
    SCall.stop ∈ (searchIdx envFFT "kw" "/p" 10).1
    ∧ SCall.stop ∈ (searchFiles envFFT 10).1 :=
  ⟨(search_stop_on_success envFFT "kw" "/p" 10).1 (by decide),
   (search_stop_on_success envFFT "kw" "/p" 10).2 (by decide)⟩

/-- C4 counterexample: when the logout request throws, src/src/index.ts
leaves the cached token in place, so a second logout issues a second
network request; part_000 likewise keeps the token on a failed logout
envelope. -/
theorem logout_token_kept_on_failure :
    logout (some "s") (.netFail "network down") = (some "s", 1)
    ∧ (logout (logout (some "s") (.netFail "network down")).1 (.netFail "network down")).2 = 1
    ∧ synoLogout "s" (.reply { success := false, errCode := some 106 }) = ("s", 1, false) := by
  refine ⟨by decide, by decide, by decide⟩

/-- C4 (amended): logout never raises (both models are total and
catch the transport failure); with no cached token it issues no network
request; the token is cleared when the logout request completes without
throwing (index.ts) or returns a success envelope (part_000), and after
such a first logout a second logout issues no network request; but when
the request throws (or, in part_000, the envelope reports failure) the
token stays cached. -/
theorem logout_amended (sid : Option String) (r : RResp Unit) (e : Envelope Unit)
    (r2 : RResp Unit) (sid2 : String) (rs rs2 : RResp Unit) (es : Envelope Unit) :
    (sidTruthy sid = false → logout sid r = (sid, 0))
    ∧ (logout sid r).2 ≤ 1
    ∧ sidTruthy (logout sid (.reply e)).1 = false
    ∧ (logout (logout sid (.reply e)).1 r2).2 = 0
    ∧ (sid2 = "" → synoLogout sid2 rs = (sid2, 0, true))
    ∧ (synoLogout sid2 rs).2.1 ≤ 1
    ∧ (es.success = true → (synoLogout sid2 (.reply es)).1 = ""
        ∧ (synoLogout (synoLogout sid2 (.reply es)).1 rs2).2.1 = 0) := by
  refine ⟨?_, ?_, ?_, ?_, ?_, ?_, ?_⟩
  · intro h; simp [logout, h]
  · rcases r with m | u <;> simp [logout] <;> split <;> simp
  · rcases sid with _ | s
    · simp [logout, sidTruthy]
    · by_cases hs : s = "" <;> simp [logout, sidTruthy, hs]
  · have h3 : sidTruthy (logout sid (.reply e)).1 = false := by
      rcases sid with _ | s
      · simp [logout, sidTruthy]
      · by_cases hs : s = "" <;> simp [logout, sidTruthy, hs]
    generalize hx : (logout sid (.reply e)).1 = x at h3 ⊢
    simp [logout, h3]
  · intro h; simp [synoLogout, h]
  · rcases rs with m | u
    · simp only [synoLogout]; split <;> simp
    · simp only [synoLogout]; split
      · simp
      · split <;> simp
  · intro h
    by_cases h0 : sid2 = ""
    · simp [synoLogout, h0]
    · simp [synoLogout, h0, h]

/-- Witness for `logout_amended` at concrete inputs. -/
theorem logout_amended_witness :
    logout none (.netFail "x") = (none, 0)
    ∧ (logout none (.netFail "x")).2 ≤ 1
    ∧ sidTruthy (logout none (.reply { success := true })).1 = false
    ∧ (logout (logout none (.reply { success := true })).1 (.netFail "x")).2 = 0
    ∧ synoLogout "" (.netFail "x") = ("", 0, true)
    ∧ (synoLogout "" (.netFail "x")).2.1 ≤ 1
    ∧ ((synoLogout "" (.reply { success := true })).1 = ""
        ∧ (synoLogout (synoLogout "" (.reply { success := true })).1 (.netFail "x")).2.1 = 0) := by
  obtain ⟨h1, h2, h3, h4, h5, h6, h7⟩ :=
    logout_amended none (.netFail "x") { success := true } (.netFail "x") ""
      (.netFail "x") (.netFail "x") { success := true }
  exact ⟨h1 rfl, h2, h3, h4, h5 rfl, h6, h7 rfl⟩

/-- C5: with valid credentials (a successful login reply carrying a
non-empty session id), the first session-ensuring call issues exactly
one login request and the immediately following second call issues
none, in both variants: the cached token is reused. -/
theorem ensure_session_single_login (t : String) (h : t ≠ "") (r2 rs2 : RResp String) :
    login none (loginOk t) = (some t, 1, .ok t)
    ∧ login (some t) r2 = (some t, 0, .ok t)
    ∧ ensureLogin "" (loginOk t) = .ok (t, 1)
    ∧ ensureLogin t rs2 = .ok (t, 0) := by
  refine ⟨?_, ?_, ?_, ?_⟩
  · simp [login, loginOk, sidTruthy]
  · simp [login, sidTruthy, h]
  · simp [ensureLogin, synoLogin, loginOk]
  · simp [ensureLogin, h]

/-- Witness for `ensure_session_single_login` at a concrete session id. -/
theorem ensure_session_single_login_witness :
    login none (loginOk "sid42") = (some "sid42", 1, .ok "sid42")
    ∧ login (some "sid42") (.netFail "x") = (some "sid42", 0, .ok "sid42")
    ∧ ensureLogin "" (loginOk "sid42") = .ok ("sid42", 1)
    ∧ ensureLogin "sid42" (.netFail "x") = .ok ("sid42", 0) :=
  ensure_session_single_login "sid42" (by decide) (.netFail "x") (.netFail "x")

/-- C6 counterexample: a `list` call whose envelope reports error code
119 (session timeout) is not retried and triggers no re-login — the
probe in `refreshSession` succeeded, so the flow issues no login call
and surfaces the 119 as an error. -/
theorem list_119_not_retried :
    listDirectory "oldsid" probeOk (loginOk "fresh") list119
      = ("oldsid", [.probe, .fsListC], .error "Failed to list directory: 119") := rfl

/-- C6 (amended): only the session-validity probe issued by
`refreshSession` before the operation detects code 119: when the probe
envelope reports code 119, or the probe throws, exactly one re-login is
issued transparently and the own call of the operation then carries the
refreshed session id; a 119 from the own call of the operation is not
retried and surfaces as an error result. -/
theorem probe_119_single_relogin (sid t m : String)
    (listR : String → RResp (List SFile)) (fs : List SFile) (e2 : Envelope (List SFile)) :
    refreshSession sid probe119 (loginOk t) = (t, [.probe, .loginC], true)
    ∧ refreshSession sid (.netFail m) (loginOk t) = (t, [.probe, .loginC], true)
    ∧ (listDirectory sid probe119 (loginOk t) listR).2.1 = [.probe, .loginC, .fsListC]
    ∧ (listR t = .reply e2 → e2.success = true → e2.data = some fs →
        (listDirectory sid probe119 (loginOk t) listR).2.2 = .ok fs) := by
  have hrs : refreshSession sid probe119 (loginOk t) = (t, [.probe, .loginC], true) := by
    simp [refreshSession, probe119, loginOk, synoLogin]
  refine ⟨hrs, ?_, ?_, ?_⟩
  · simp [refreshSession, loginOk, synoLogin]
  · simp only [listDirectory, hrs]
    rcases h2 : listR t with m2 | le
    · simp
    · rcases hs : le.success with _ | _
      · simp [hs]
      · rcases hld : le.data with _ | files <;> simp [hs, hld]
  · intro hl hs hd
    simp [listDirectory, hrs, hl, hs, hd]

/-- Witness for `probe_119_single_relogin` at a concrete stale session
and a successful list reply. -/
theorem probe_119_single_relogin_witness :
    refreshSession "old" probe119 (loginOk "fresh") = ("fresh", [.probe, .loginC], true)
    ∧ refreshSession "old" (.netFail "x") (loginOk "fresh") = ("fresh", [.probe, .loginC], true)
    ∧ (listDirectory "old" probe119 (loginOk "fresh") sampleWorldS.listR).2.1
        = [.probe, .loginC, .fsListC]
    ∧ (listDirectory "old" probe119 (loginOk "fresh") sampleWorldS.listR).2.2
        = .ok [⟨"a.txt", "/p/a.txt", false, 3, 7⟩] := by
  obtain ⟨h1, h2, h3, h4⟩ :=
    probe_119_single_relogin "old" "fresh" "x" sampleWorldS.listR
      [⟨"a.txt", "/p/a.txt", false, 3, 7⟩]
      { success := true, data := some [⟨"a.txt", "/p/a.txt", false, 3, 7⟩] }
  exact ⟨h1, h2, h3, h4 rfl rfl rfl⟩

/-- C7: both dispatchers convert every raised error into a uniform
error-shaped result at their boundary: whenever an invocation returns a
result at all, it is either a success payload or an error payload whose
text is `Error: ` followed by the message — no exception escapes. -/
theorem dispatch_wellformed :
    (∀ sid name args w fuel r, (dispatchS sid name args w fuel).1 = some r →
      r.isError = false ∨ ∃ m, r.text = "Error: " ++ m ∧ r.isError = true)
    ∧ (∀ sid name args w fuel r, (dispatchI sid name args w fuel).1 = some r →
      r.isError = false ∨ ∃ m, r.text = "Error: " ++ m ∧ r.isError = true) := by
  constructor
  · intro sid name args w fuel r h
    simp only [dispatchS] at h
    rcases ho : (runToolS sid name args w fuel).2.2 with _ | x
    · rw [ho] at h; simp at h
    · rcases x with m | t
      · rw [ho] at h
        simp only [Option.some.injEq] at h
        exact Or.inr ⟨m, by rw [← h], by rw [← h]⟩
      · rw [ho] at h
        simp only [Option.some.injEq] at h
        exact Or.inl (by rw [← h])
  · intro sid name args w fuel r h
    simp only [dispatchI] at h
    rcases ho : (runToolI sid name args w fuel).2.2 with _ | x
    · rw [ho] at h; simp at h
    · rcases x with m | t
      · rw [ho] at h
        simp only [Option.some.injEq] at h
        exact Or.inr ⟨m, by rw [← h], by rw [← h]⟩
      · rw [ho] at h
        simp only [Option.some.injEq] at h
        exact Or.inl (by rw [← h])

/-- Witness for `dispatch_wellformed`: an unknown tool name yields the
uniform error result in both dispatchers. -/
theorem dispatch_wellformed_witness :
    ((⟨"Error: Unknown tool: nope", true⟩ : ToolResult).isError = false
      ∨ ∃ m, (⟨"Error: Unknown tool: nope", true⟩ : ToolResult).text = "Error: " ++ m
          ∧ (⟨"Error: Unknown tool: nope", true⟩ : ToolResult).isError = true)
    ∧ ((⟨"Error: Unknown tool: nope", true⟩ : ToolResult).isError = false
      ∨ ∃ m, (⟨"Error: Unknown tool: nope", true⟩ : ToolResult).text = "Error: " ++ m
          ∧ (⟨"Error: Unknown tool: nope", true⟩ : ToolResult).isError = true) :=
  ⟨dispatch_wellformed.1 "" "nope" none sampleWorldS 0 _ rfl,
   dispatch_wellformed.2 none "nope" none sampleWorldI 0 _ rfl⟩

/-- C8: an invocation whose required `path` argument is missing or has
the wrong primitive type yields an error result that names the
offending argument, and issues no remote call at all — neither a login
nor the own call of the operation — in both dispatchers. -/
theorem validation_failure_no_remote_call (sid : String) (sidI : Option String)
    (a : Args) (wS : WorldS) (wI : WorldI) (fuel : Nat)
    (h : isStrArg (getArg a "path") = false) :
    (∃ pre post,
      (dispatchS sid "list_directory" (some a) wS fuel).1
        = some ⟨pre ++ "path" ++ post, true⟩)
    ∧ (dispatchS sid "list_directory" (some a) wS fuel).2.2 = []
    ∧ (∃ pre post,
      (dispatchI sidI "list_folders" (some a) wI fuel).1
        = some ⟨pre ++ "path" ++ post, true⟩)
    ∧ (dispatchI sidI "list_folders" (some a) wI fuel).2.2 = [] := by
  have hz : ∃ tail, zodParse (some a) ["path"]
      = some ("ZodError: [ " ++ ("invalid_type at path [ " ++ "path" ++ " ]: " ++ tail) ++ " ]") := by
    rcases hv : getArg a "path" with _ | jv
    · exact ⟨"Required", by simp [zodParse, zodStrIssue, hv]; rfl⟩
    · rcases jv with s | n | b | _
      · simp [isStrArg, hv] at h
      · exact ⟨"expected string, received number",
          by simp [zodParse, zodStrIssue, hv, jvalTypeName]; rfl⟩
      · exact ⟨"expected string, received boolean",
          by simp [zodParse, zodStrIssue, hv, jvalTypeName]; rfl⟩
      · exact ⟨"expected string, received null",
          by simp [zodParse, zodStrIssue, hv, jvalTypeName]; rfl⟩
  obtain ⟨tail, hz⟩ := hz
  refine ⟨⟨"Error: Invalid arguments for list_directory: ZodError: [ invalid_type at path [ ",
      " ]: " ++ tail ++ " ]", ?_⟩, ?_,
    ⟨"Error: Invalid arguments: ZodError: [ invalid_type at path [ ",
      " ]: " ++ tail ++ " ]", ?_⟩, ?_⟩
  · simp [dispatchS, runToolS, hz]; rfl
  · simp [dispatchS, runToolS, hz]
  · simp [dispatchI, runToolI, hz]; rfl
  · simp [dispatchI, runToolI, hz]

/-- Witness for `validation_failure_no_remote_call` at an arguments
object whose `path` field is a number. -/
theorem validation_failure_no_remote_call_witness :
    isStrArg (getArg badArgs "path") = false
    ∧ ((∃ pre post,
        (dispatchS "" "list_directory" (some badArgs) sampleWorldS 0).1
          = some ⟨pre ++ "path" ++ post, true⟩)
      ∧ (dispatchS "" "list_directory" (some badArgs) sampleWorldS 0).2.2 = []
      ∧ (∃ pre post,
        (dispatchI none "list_folders" (some badArgs) sampleWorldI 0).1
          = some ⟨pre ++ "path" ++ post, true⟩)
      ∧ (dispatchI none "list_folders" (some badArgs) sampleWorldI 0).2.2 = []) :=
  ⟨by decide,
   validation_failure_no_remote_call "" none badArgs sampleWorldS sampleWorldI 0 (by decide)⟩

/-- C9: the byte formatter renders 1073741824 as `1 GB` and 0 as
`0 Bytes`. -/
theorem formatBytes_values :
    formatBytes 1073741824 = "1 GB" ∧ formatBytes 0 = "0 Bytes" :=
  ⟨by decide, by decide⟩

/-- C10 counterexample: on input `/a//` the formatter strips only one
trailing slash, so the result `/a/` still ends in a slash without being
the root, and applying the formatter again changes it — it is not
idempotent. -/
theorem formatSynoPath_not_idempotent :
    formatSynoPath ("/a//".toList) = "/a/".toList
    ∧ ("/a/".toList).getLast? = some '/'
    ∧ "/a/".toList ≠ ['/']
    ∧ formatSynoPath (formatSynoPath ("/a//".toList)) ≠ formatSynoPath ("/a//".toList) :=
  ⟨by decide, by decide, by decide, by decide⟩

/-- Core of the amended C10 claim, for paths already starting with a
slash: under no doubled trailing slash, the formatter keeps the leading
slash, leaves no trailing slash except on the root, and is idempotent. -/
lemma formatSynoPath_core (q : List Char) (hq : q.head? = some '/')
    (hs : ¬ ['/', '/'] <:+ q) :
    (formatSynoPath q).head? = some '/'
    ∧ ((formatSynoPath q).getLast? = some '/' → formatSynoPath q = ['/'])
    ∧ formatSynoPath (formatSynoPath q) = formatSynoPath q := by
  have hunf : formatSynoPath q =
      if q ≠ ['/'] ∧ q.getLast? = some '/' then q.dropLast else q := by
    simp [formatSynoPath, hq]
  rcases List.eq_nil_or_concat q with hnil | ⟨L, b, hLb⟩
  · rw [hnil] at hq; simp at hq
  · have hq' : q = L ++ [b] := by simpa [List.concat_eq_append] using hLb
    by_cases hb : b = '/'
    · subst hb
      by_cases hL : L = []
      · have hq1 : q = ['/'] := by simp [hq', hL]
        have hid : formatSynoPath q = ['/'] := by
          rw [hunf, hq1]; simp
        refine ⟨by rw [hid]; rfl, fun _ => hid, ?_⟩
        rw [hid]
        decide
      · have hlast : q.getLast? = some '/' := by
          rw [hq']; exact List.getLast?_concat L
        have hne : q ≠ ['/'] := by
          rw [hq']; intro hbad
          cases L with
          | nil => exact hL rfl
          | cons c cs => simp at hbad
        have hdrop : formatSynoPath q = L := by
          rw [hunf, if_pos ⟨hne, hlast⟩, hq', List.dropLast_concat]
        have hLhead : L.head? = some '/' := by
          rw [hq'] at hq
          cases L with
          | nil => exact absurd rfl hL
          | cons c cs => simpa using hq
        have hLlast : L.getLast? ≠ some '/' := by
          intro hl
          rcases List.eq_nil_or_concat L with h0 | ⟨M, c, hMc⟩
          · rw [h0] at hl; simp at hl
          · have hM : L = M ++ [c] := by simpa [List.concat_eq_append] using hMc
            rw [hM, List.getLast?_concat] at hl
            have hc : c = '/' := Option.some.inj hl
            apply hs
            rw [hq', hM, hc]
            have hms : (M ++ ['/']) ++ ['/'] = M ++ ['/', '/'] := by simp
            rw [hms]
            exact List.suffix_append M ['/', '/']
        refine ⟨?_, ?_, ?_⟩
        · rw [hdrop]; exact hLhead
        · rw [hdrop]; intro hbad; exact absurd hbad hLlast
        · rw [hdrop]
          have hunf2 : formatSynoPath L =
              if L ≠ ['/'] ∧ L.getLast? = some '/' then L.dropLast else L := by
            simp [formatSynoPath, hLhead]
          rw [hunf2, if_neg (fun hc => hLlast hc.2)]
    · have hlast : q.getLast? = some b := by
        rw [hq']; exact List.getLast?_concat L
      have hcond : ¬ (q ≠ ['/'] ∧ q.getLast? = some '/') := by
        rintro ⟨-, h2⟩
        rw [hlast] at h2
        exact hb (Option.some.inj h2)
      have hid : formatSynoPath q = q := by rw [hunf, if_neg hcond]
      refine ⟨?_, ?_, ?_⟩
      · rw [hid]; exact hq
      · rw [hid, hlast]; intro hbad; exact absurd (Option.some.inj hbad) hb
      · rw [hid]; exact hid

/-- The formatted path begins with a slash for every input, including
inputs that end in a doubled slash: the working copy starts with a
slash, and when a trailing slash is removed the non-root length bound
keeps the head in place. -/
lemma formatSynoPath_head_aux (q : List Char) (hq : q.head? = some '/') :
    (formatSynoPath q).head? = some '/' := by
  have hunf : formatSynoPath q =
      if q ≠ ['/'] ∧ q.getLast? = some '/' then q.dropLast else q := by
    simp [formatSynoPath, hq]
  rw [hunf]
  split
  · next hc =>
    obtain ⟨hne, hlast⟩ := hc
    rcases List.eq_nil_or_concat q with hnil | ⟨L, b, hLb⟩
    · rw [hnil] at hq; simp at hq
    · have hq' : q = L ++ [b] := by simpa [List.concat_eq_append] using hLb
      have hb : b = '/' := by
        rw [hq', List.getLast?_concat] at hlast
        exact Option.some.inj hlast
      cases L with
      | nil =>
        rw [hq', hb] at hne
        exact absurd rfl hne
      | cons c cs =>
        have hc' : c = '/' := by
          rw [hq'] at hq
          simpa using hq
        rw [hq', List.dropLast_concat, hc']
        rfl
  · exact hq

/-- C10 (amended): for every input path, the formatted path starts with
a slash; and provided the input does not end in a doubled slash — the
formatter removes only one trailing slash — the result does not end in
a slash unless it is exactly the root, and the formatter is idempotent. -/
theorem formatSynoPath_amended (p : List Char) :
    (formatSynoPath p).head? = some '/'
    ∧ (¬ ['/', '/'] <:+ p →
        ((formatSynoPath p).getLast? = some '/' → formatSynoPath p = ['/'])
        ∧ formatSynoPath (formatSynoPath p) = formatSynoPath p) := by
  by_cases hh : p.head? = some '/'
  · exact ⟨formatSynoPath_head_aux p hh, fun h => (formatSynoPath_core p hh h).2⟩
  · have hcons : formatSynoPath p = formatSynoPath ('/' :: p) := by
      simp [formatSynoPath, hh]
    constructor
    · rw [hcons]
      exact formatSynoPath_head_aux ('/' :: p) rfl
    · intro h
      have hsuf : ¬ ['/', '/'] <:+ ('/' :: p) := by
        rintro ⟨s, hs⟩
        rcases s with _ | ⟨c, s'⟩
        · have hp : p = ['/'] := by simpa using hs.symm
          rw [hp] at hh
          exact hh rfl
        · have hp : s' ++ ['/', '/'] = p := (by simpa using hs : _ ∧ _).2
          exact h ⟨s', hp⟩
      rw [hcons]
      exact (formatSynoPath_core ('/' :: p) rfl hsuf).2

/-- Witness for `formatSynoPath_amended` on the path `photos/`,
discharging the no-doubled-trailing-slash hypothesis of the
conditional conjunct. -/
theorem formatSynoPath_amended_witness :
    (formatSynoPath ("photos/".toList)).head? = some '/'
    ∧ (¬ ['/', '/'] <:+ "photos/".toList)
    ∧ ((formatSynoPath ("photos/".toList)).getLast? = some '/'
        → formatSynoPath ("photos/".toList) = ['/'])
    ∧ formatSynoPath (formatSynoPath ("photos/".toList))
        = formatSynoPath ("photos/".toList) := by
  obtain ⟨h1, h2⟩ := formatSynoPath_amended ("photos/".toList)
  exact ⟨h1, by decide, (h2 (by decide)).1, (h2 (by decide)).2⟩

end SynoLink
